import Mathlib

/-!
Verification of the Divvy expense-splitting application core.

This file gives a shallow embedding of the two core components of the
repository and proves (or refutes) the specified properties about them:

* the split allocation logic of `createExpenseAction`
  (src/unnamed/part_014), including equal, custom and item-based splits;
* the Lemon Squeezy subscription state machine: `verifySignature`,
  `storeWebhookEvent`, `markWebhookEventProcessed`,
  `processSubscriptionEvent` and the `POST` handler
  (src/app/api/webhooks/lemon-squeezy/route.ts), together with the
  variant of `processSubscriptionEvent` in src/scripts/reprocess-webhooks.ts.

Monetary amounts (JavaScript numbers) are modelled as exact rationals;
timestamps as integers.  The database tables are modelled as lists of row
records; the `numeric(10, 2)` columns of the schema (src/unnamed/part_018)
round stored values to cents, which is modelled by `round2`.
-/

namespace Divvy

/-! ## Split allocation engine (createExpenseAction, src/unnamed/part_014) -/

/-- The three split methods of `createExpenseAction` (`splitType`). -/
inductive SplitType
  | equal
  | custom
  | by_item
deriving DecidableEq, Repr

/-- The `ExpenseItemData` type of the source: one receipt line item. -/
structure ExpenseItemData where
  name : String
  price : ℚ
  quantity : Option ℚ
  isSharedCost : Bool
  assignedTo : List String
deriving DecidableEq, Repr

/-- A caller-supplied custom split entry (`customSplits` element). -/
structure CustomSplit where
  userId : String
  amount : ℚ
deriving DecidableEq, Repr

/-- The `CreateExpenseData` type of the source (fields relevant to splitting). -/
structure CreateExpenseData where
  groupId : String
  description : String
  amount : ℚ
  paidById : String
  splitBetween : List String
  splitType : SplitType
  customSplits : Option (List CustomSplit) := none
  items : Option (List ExpenseItemData) := none
deriving DecidableEq, Repr

/-- JavaScript `item.quantity || 1`: a missing or zero quantity counts as 1. -/
def jsQuantity (q : Option ℚ) : ℚ :=
  match q with
  | none => 1
  | some x => if x = 0 then 1 else x

/-- JavaScript `item.price * (item.quantity || 1)`. -/
def itemTotal (it : ExpenseItemData) : ℚ :=
  it.price * jsQuantity it.quantity

/-- Rounding to cents.  `Number.prototype.toFixed(2)` in the source, and the
`numeric(10, 2)` columns of the schema, round half away from zero; all
amounts in this development are nonnegative, where this is floor of
`100 q + 1/2` divided by 100. -/
def round2 (q : ℚ) : ℚ :=
  ((⌊q * 100 + 1/2⌋ : ℤ) : ℚ) / 100

/-- JavaScript `userTotals[uid] = (userTotals[uid] || 0) + amt` on a JavaScript object:
update in place if the key exists, otherwise append (objects preserve
insertion order of string keys). -/
def bump : List (String × ℚ) → String → ℚ → List (String × ℚ)
  | [], uid, amt => [(uid, amt)]
  | (k, v) :: rest, uid, amt =>
    if k = uid then (k, v + amt) :: rest else (k, v) :: bump rest uid amt

/-- Accumulator of the first pass over the items. -/
structure Pass1 where
  userTotals : List (String × ℚ)
  totalNonShared : ℚ
  totalShared : ℚ
deriving DecidableEq, Repr

/-- First pass of the `by_item` branch: shared items accumulate into the
shared total; each non-shared item adds `itemTotal / assignedTo.length`
to every assigned user and its total to `totalNonSharedCost`.  (The source
pushes shared items into a list and sums it afterwards; only the sum is
ever used, so it is accumulated directly here.)  Note that an item with an
empty `assignedTo` still adds its price to `totalNonSharedCost` while the
inner loop allocates it to nobody. -/
def pass1 (items : List ExpenseItemData) : Pass1 :=
  items.foldl
    (fun acc it =>
      if it.isSharedCost then
        { acc with totalShared := acc.totalShared + itemTotal it }
      else
        let t := itemTotal it
        let per := t / (it.assignedTo.length : ℚ)
        { acc with
          userTotals := it.assignedTo.foldl (fun m u => bump m u per) acc.userTotals
          totalNonShared := acc.totalNonShared + t })
    ⟨[], 0, 0⟩

/-- The `Set` of all user ids appearing in any item's `assignedTo`
(insertion order, first occurrence kept), as built in the equal-share
branch of the source. -/
def allAssignedUsers (items : List ExpenseItemData) : List String :=
  items.foldl
    (fun acc it =>
      it.assignedTo.foldl (fun a u => if u ∈ a then a else a ++ [u]) acc)
    []

/-- Second pass of the `by_item` branch: distribute the shared cost.
If both totals are positive, each user gets
`amount + totalShared * (amount / totalNonShared)`.  Otherwise, if the
shared total is positive and `userTotals` is nonempty
(`Object.keys(userTotals).length > 0` in the source), the shared total is
divided equally over all assigned users.  Otherwise nothing happens. -/
def applySharedCosts (items : List ExpenseItemData) (p : Pass1) :
    List (String × ℚ) :=
  if p.totalShared > 0 ∧ p.totalNonShared > 0 then
    p.userTotals.map (fun e => (e.1, e.2 + p.totalShared * (e.2 / p.totalNonShared)))
  else if p.totalShared > 0 ∧ p.userTotals ≠ [] then
    let au := allAssignedUsers items
    let per := p.totalShared / (au.length : ℚ)
    au.foldl (fun m u => bump m u per) p.userTotals
  else
    p.userTotals

/-- The splits produced by the `by_item` branch: `Object.entries(userTotals)`
with each amount formatted by `toFixed(2)`. -/
def itemSplits (items : List ExpenseItemData) : List (String × ℚ) :=
  (applySharedCosts items (pass1 items)).map (fun e => (e.1, round2 e.2))

/-- The `splitsToInsert` computation of `createExpenseAction`:
the `by_item` branch runs only when `data.items` is present and nonempty;
the `custom` branch only when `data.customSplits` is present (an empty
array is truthy in JavaScript); everything else falls through to the
equal split `data.amount / data.splitBetween.length` per user. -/
def splitsToInsert (d : CreateExpenseData) : List (String × ℚ) :=
  if d.splitType = SplitType.by_item ∧ (d.items.getD []).length > 0 then
    itemSplits (d.items.getD [])
  else if d.splitType = SplitType.custom ∧ d.customSplits.isSome then
    (d.customSplits.getD []).map (fun s => (s.userId, s.amount))
  else
    d.splitBetween.map (fun uid => (uid, d.amount / (d.splitBetween.length : ℚ)))

/-- The split amounts as persisted: the `amount` column of `expense_splits`
is `numeric(10, 2)`, so each stored amount is rounded to cents. -/
def persistedSplits (d : CreateExpenseData) : List (String × ℚ) :=
  (splitsToInsert d).map (fun e => (e.1, round2 e.2))

/-- The expense's stored `amount`: `createExpenseAction` stores
`data.amount.toString()` into the `numeric(10, 2)` column. -/
def persistedAmount (d : CreateExpenseData) : ℚ :=
  round2 d.amount

/-- Sum of the amounts of a split list. -/
def splitSum (l : List (String × ℚ)) : ℚ :=
  (l.map Prod.snd).sum

/-! ## Subscription state machine (src/app/api/webhooks/lemon-squeezy/route.ts) -/

/-- The user's denormalized subscription tier (`users.subscription_tier`). -/
inductive Tier
  | free
  | pro
deriving DecidableEq, Repr

/-- The subscription status enum (`subscription_status_enum` in the schema). -/
inductive SubStatus
  | on_trial
  | active
  | paused
  | past_due
  | unpaid
  | cancelled
  | expired
deriving DecidableEq, Repr

/-- The six webhook event names handled by the route. -/
inductive EventName
  | subscription_created
  | subscription_updated
  | subscription_cancelled
  | subscription_expired
  | subscription_resumed
  | subscription_paused
deriving DecidableEq, Repr

/-- The `attributes.first_subscription_item` object of the payload. -/
structure FirstSubscriptionItem where
  id : Int
  price_id : Int
  is_usage_based : Bool
deriving DecidableEq, Repr

/-- The payload attributes consumed by the state machine.  Timestamps are
modelled as integers (`Option Int` for nullable date strings, with
`new Date(s)` the identity on the parsed time).  `pause` is `null` or an
object; only its null-ness is consumed (`attributes.pause !== null`). -/
structure Attributes where
  customer_id : Int
  order_id : Int
  product_id : Int
  variant_id : Int
  product_name : String
  variant_name : String
  user_name : String
  user_email : String
  status : SubStatus
  status_formatted : String
  pause : Option String
  trial_ends_at : Option Int
  first_subscription_item : Option FirstSubscriptionItem
  renews_at : Option Int
  ends_at : Option Int
deriving DecidableEq, Repr

/-- The `meta.custom_data` object of the payload. -/
structure CustomData where
  user_id : Option String
deriving DecidableEq, Repr

/-- The `meta` object of the payload. -/
structure Meta where
  event_name : EventName
  custom_data : Option CustomData
deriving DecidableEq, Repr

/-- The `data` object of the payload (`data.id` is the external subscription id). -/
structure EventData where
  id : String
  attributes : Attributes
deriving DecidableEq, Repr

/-- An inbound Lemon Squeezy webhook payload. -/
structure WebhookPayload where
  meta : Meta
  data : EventData
deriving DecidableEq, Repr

/-- A row of the `users` table (subscription-relevant columns).
`subscriptionStatus` is a text column that only ever holds status strings,
so it is modelled by `SubStatus`. -/
structure UserRow where
  id : String
  subscriptionTier : Tier
  subscriptionStatus : SubStatus
  isPaused : Bool
  lemonSqueezyCustomerId : Option String
  lemonSqueezySubscriptionId : Option String
  currentPeriodEnd : Option Int
deriving DecidableEq, Repr

/-- A row of the `plans` table (columns written by the webhook path). -/
structure PlanRow where
  id : Nat
  variantId : Int
  productId : Int
  productName : Option String
  name : String
  price : String
  description : Option String
deriving DecidableEq, Repr

/-- A row of the `subscriptions` table. -/
structure SubRow where
  id : Nat
  lemonSqueezyId : String
  orderId : Int
  name : String
  email : String
  status : SubStatus
  statusFormatted : String
  renewsAt : Option Int
  endsAt : Option Int
  trialEndsAt : Option Int
  price : String
  isUsageBased : Bool
  isPaused : Bool
  subscriptionItemId : Option Int
  userId : String
  planId : Nat
  createdAt : Int
  updatedAt : Int
deriving DecidableEq, Repr

/-- A row of the `webhook_events` table. -/
structure WebhookEventRow where
  id : Nat
  eventName : EventName
  processed : Bool
  body : WebhookPayload
  processingError : Option String
  createdAt : Int
deriving DecidableEq, Repr

/-- The database state touched by the webhook path.  Serial primary keys
are modelled with explicit next-id counters. -/
structure DBState where
  users : List UserRow
  plans : List PlanRow
  nextPlanId : Nat
  subs : List SubRow
  nextSubId : Nat
  events : List WebhookEventRow
  nextEventId : Nat
deriving DecidableEq, Repr

/-- Row predicate for `eq(users.id, userId)`. -/
def userIs (uid : String) : UserRow → Bool := fun u => u.id == uid

/-- Row predicate for `eq(subscriptions.lemonSqueezyId, id)`. -/
def subIs (lsId : String) : SubRow → Bool := fun r => r.lemonSqueezyId == lsId

/-- Drizzle `db.query.users.findFirst` by user id. -/
def findUser (st : DBState) (uid : String) : Option UserRow :=
  st.users.find? (userIs uid)

/-- Drizzle `db.update(table).set(...).where(pred)` on a list of rows. -/
def updateWhere {α : Type} (l : List α) (q : α → Bool) (f : α → α) : List α :=
  l.map (fun a => if q a then f a else a)

/-- The plan row auto-created from webhook data for an unknown variant
(`name: attributes.variant_name || attributes.product_name`, price `"0"`). -/
def mkPlan (id : Nat) (a : Attributes) : PlanRow :=
  { id := id
    variantId := a.variant_id
    productId := a.product_id
    productName := some a.product_name
    name := if a.variant_name = "" then a.product_name else a.variant_name
    price := "0"
    description := none }

/-- Plan lookup by variant id with auto-creation: returns the updated plans
table, the updated next plan id, and the id of the found or created plan.
(The reprocess script's `onConflictDoNothing` variant behaves identically
in this sequential model.) -/
def resolvePlan (pl : List PlanRow) (nextId : Nat) (a : Attributes) :
    List PlanRow × Nat × Nat :=
  match pl.find? (fun q => q.variantId == a.variant_id) with
  | some q => (pl, nextId, q.id)
  | none => (pl ++ [mkPlan nextId a], nextId + 1, nextId)

/-- The `subscriptionData` object built by both implementations of
`processSubscriptionEvent`. -/
structure SubData where
  lemonSqueezyId : String
  orderId : Int
  name : String
  email : String
  status : SubStatus
  statusFormatted : String
  renewsAt : Option Int
  endsAt : Option Int
  trialEndsAt : Option Int
  price : String
  isUsageBased : Bool
  isPaused : Bool
  subscriptionItemId : Option Int
  userId : String
  planId : Nat
  updatedAt : Int
deriving DecidableEq, Repr

/-- Builds `subscriptionData` from the payload
(`price: attributes.first_subscription_item?.price_id?.toString() ?? '0'`,
`isPaused: attributes.pause !== null`, `updatedAt: new Date()`). -/
def mkSubData (p : WebhookPayload) (planId : Nat) (userId : String) (now : Int) :
    SubData :=
  let a := p.data.attributes
  { lemonSqueezyId := p.data.id
    orderId := a.order_id
    name := a.user_name
    email := a.user_email
    status := a.status
    statusFormatted := a.status_formatted
    renewsAt := a.renews_at
    endsAt := a.ends_at
    trialEndsAt := a.trial_ends_at
    price := match a.first_subscription_item with
             | some f => toString f.price_id
             | none => "0"
    isUsageBased := match a.first_subscription_item with
                    | some f => f.is_usage_based
                    | none => false
    isPaused := a.pause.isSome
    subscriptionItemId := a.first_subscription_item.map (fun f => f.id)
    userId := userId
    planId := planId
    updatedAt := now }

/-- Overwrites every `subscriptionData` column of a subscription row,
keeping the serial `id` and `createdAt` (the `set` of `onConflictDoUpdate`). -/
def setSubFields (r : SubRow) (d : SubData) : SubRow :=
  { id := r.id
    lemonSqueezyId := d.lemonSqueezyId
    orderId := d.orderId
    name := d.name
    email := d.email
    status := d.status
    statusFormatted := d.statusFormatted
    renewsAt := d.renewsAt
    endsAt := d.endsAt
    trialEndsAt := d.trialEndsAt
    price := d.price
    isUsageBased := d.isUsageBased
    isPaused := d.isPaused
    subscriptionItemId := d.subscriptionItemId
    userId := d.userId
    planId := d.planId
    createdAt := r.createdAt
    updatedAt := d.updatedAt }

/-- A freshly inserted subscription row (serial id, `createdAt` defaulting
to the insertion time). -/
def newSubRow (id : Nat) (created : Int) (d : SubData) : SubRow :=
  { id := id
    lemonSqueezyId := d.lemonSqueezyId
    orderId := d.orderId
    name := d.name
    email := d.email
    status := d.status
    statusFormatted := d.statusFormatted
    renewsAt := d.renewsAt
    endsAt := d.endsAt
    trialEndsAt := d.trialEndsAt
    price := d.price
    isUsageBased := d.isUsageBased
    isPaused := d.isPaused
    subscriptionItemId := d.subscriptionItemId
    userId := d.userId
    planId := d.planId
    createdAt := created
    updatedAt := d.updatedAt }

/-- Drizzle upsert of a subscription row, keyed on the unique
`lemonSqueezyId` (`onConflictDoUpdate`): update the matching row(s) in place if the
unique key is present, otherwise insert a new row. -/
def upsertSub (subs : List SubRow) (nextId : Nat) (d : SubData) (now : Int) :
    List SubRow × Nat :=
  if subs.any (fun r => r.lemonSqueezyId == d.lemonSqueezyId) then
    (updateWhere subs (fun r => r.lemonSqueezyId == d.lemonSqueezyId)
      (fun r => setSubFields r d), nextId)
  else
    (subs ++ [newSubRow nextId now d], nextId + 1)

/-- The user `set` of the `subscription_created` branch. -/
def createdUserUpdate (a : Attributes) (lsId : String) : UserRow → UserRow := fun u =>
  { u with
    subscriptionTier := Tier.pro
    subscriptionStatus := a.status
    lemonSqueezyCustomerId := some (toString a.customer_id)
    lemonSqueezySubscriptionId := some lsId
    currentPeriodEnd := a.renews_at
    isPaused := false }

/-- The user `set` of the `subscription_updated` / `subscription_resumed`
branch (`isPro = status === 'active' || status === 'on_trial'`). -/
def updatedUserUpdate (a : Attributes) : UserRow → UserRow := fun u =>
  { u with
    subscriptionTier := if a.status = SubStatus.active ∨ a.status = SubStatus.on_trial
                        then Tier.pro else Tier.free
    subscriptionStatus := a.status
    currentPeriodEnd := a.renews_at
    isPaused := a.pause.isSome }

/-- The user `set` of the `subscription_paused` branch. -/
def pausedUserUpdate : UserRow → UserRow := fun u =>
  { u with subscriptionStatus := SubStatus.paused, isPaused := true }

/-- The user `set` of the route's `subscription_cancelled` branch: the tier
is left untouched. -/
def cancelledUserUpdate (a : Attributes) : UserRow → UserRow := fun u =>
  { u with subscriptionStatus := SubStatus.cancelled, currentPeriodEnd := a.ends_at }

/-- The user `set` of the route's `subscription_expired` branch. -/
def expiredUserUpdate : UserRow → UserRow := fun u =>
  { u with
    subscriptionTier := Tier.free
    subscriptionStatus := SubStatus.expired
    isPaused := false
    lemonSqueezySubscriptionId := none }

/-- The user `set` of the reprocess script's combined
`subscription_cancelled` / `subscription_expired` branch: the tier is
dropped to `free` on either event. -/
def reprocessTerminalUserUpdate (a : Attributes) : UserRow → UserRow := fun u =>
  { u with
    subscriptionTier := Tier.free
    subscriptionStatus := a.status
    isPaused := false }

/-- The subscription `set` of the `subscription_paused` branch. -/
def pausedSubUpdate (now : Int) : SubRow → SubRow := fun r =>
  { r with status := SubStatus.paused, isPaused := true, updatedAt := now }

/-- The subscription `set` of the route's `subscription_cancelled` branch. -/
def cancelledSubUpdate (a : Attributes) (now : Int) : SubRow → SubRow := fun r =>
  { r with status := a.status, endsAt := a.ends_at, updatedAt := now }

/-- The subscription `set` of the route's `subscription_expired` branch. -/
def expiredSubUpdate (now : Int) : SubRow → SubRow := fun r =>
  { r with status := SubStatus.expired, endsAt := some now, updatedAt := now }

/-- The subscription `set` of the reprocess script's terminal branch
(`endsAt: attributes.ends_at ? new Date(attributes.ends_at) : new Date()`). -/
def reprocessTerminalSubUpdate (a : Attributes) (now : Int) : SubRow → SubRow := fun r =>
  { r with
    status := a.status
    endsAt := match a.ends_at with
              | some t => some t
              | none => some now
    updatedAt := now }

/-- The route's `processSubscriptionEvent` (lemon-squeezy/route.ts):
validates `user_id`, verifies the user exists, resolves (or auto-creates)
the plan, then dispatches on the event name.  The `set` payloads of each
branch are the named functions above. -/
def processSubscriptionEvent (p : WebhookPayload) (now : Int) (st : DBState) :
    Except String DBState :=
  match p.meta.custom_data.bind (fun c => c.user_id) with
  | none => Except.error "No user_id found in webhook custom_data"
  | some userId =>
    match findUser st userId with
    | none => Except.error ("User not found: " ++ userId)
    | some _ =>
      let a := p.data.attributes
      let pr := resolvePlan st.plans st.nextPlanId a
      let lemonSqueezyId := p.data.id
      let d := mkSubData p pr.2.2 userId now
      match p.meta.event_name with
      | EventName.subscription_created =>
        let sr := upsertSub st.subs st.nextSubId d now
        Except.ok
          { st with
            plans := pr.1, nextPlanId := pr.2.1
            subs := sr.1, nextSubId := sr.2
            users := updateWhere st.users (userIs userId)
              (createdUserUpdate a lemonSqueezyId) }
      | EventName.subscription_updated | EventName.subscription_resumed =>
        let sr := upsertSub st.subs st.nextSubId d now
        Except.ok
          { st with
            plans := pr.1, nextPlanId := pr.2.1
            subs := sr.1, nextSubId := sr.2
            users := updateWhere st.users (userIs userId) (updatedUserUpdate a) }
      | EventName.subscription_paused =>
        Except.ok
          { st with
            plans := pr.1, nextPlanId := pr.2.1
            subs := updateWhere st.subs (subIs lemonSqueezyId) (pausedSubUpdate now)
            users := updateWhere st.users (userIs userId) pausedUserUpdate }
      | EventName.subscription_cancelled =>
        Except.ok
          { st with
            plans := pr.1, nextPlanId := pr.2.1
            subs := updateWhere st.subs (subIs lemonSqueezyId) (cancelledSubUpdate a now)
            users := updateWhere st.users (userIs userId) (cancelledUserUpdate a) }
      | EventName.subscription_expired =>
        Except.ok
          { st with
            plans := pr.1, nextPlanId := pr.2.1
            subs := updateWhere st.subs (subIs lemonSqueezyId) (expiredSubUpdate now)
            users := updateWhere st.users (userIs userId) expiredUserUpdate }

/-- The `processSubscriptionEvent` of src/scripts/reprocess-webhooks.ts.
It differs from the route's in the terminal events: `subscription_cancelled`
and `subscription_expired` share one branch that sets the user's tier to
`free` immediately and does not touch `currentPeriodEnd`, and the
subscription's `endsAt` falls back to the current time. -/
def reprocessSubscriptionEvent (p : WebhookPayload) (now : Int) (st : DBState) :
    Except String DBState :=
  match p.meta.custom_data.bind (fun c => c.user_id) with
  | none => Except.error "No user_id found in webhook custom_data"
  | some userId =>
    match findUser st userId with
    | none => Except.error ("User not found: " ++ userId)
    | some _ =>
      let a := p.data.attributes
      let pr := resolvePlan st.plans st.nextPlanId a
      let lemonSqueezyId := p.data.id
      let d := mkSubData p pr.2.2 userId now
      match p.meta.event_name with
      | EventName.subscription_created =>
        let sr := upsertSub st.subs st.nextSubId d now
        Except.ok
          { st with
            plans := pr.1, nextPlanId := pr.2.1
            subs := sr.1, nextSubId := sr.2
            users := updateWhere st.users (userIs userId)
              (createdUserUpdate a lemonSqueezyId) }
      | EventName.subscription_updated | EventName.subscription_resumed =>
        let sr := upsertSub st.subs st.nextSubId d now
        Except.ok
          { st with
            plans := pr.1, nextPlanId := pr.2.1
            subs := sr.1, nextSubId := sr.2
            users := updateWhere st.users (userIs userId) (updatedUserUpdate a) }
      | EventName.subscription_paused =>
        Except.ok
          { st with
            plans := pr.1, nextPlanId := pr.2.1
            subs := updateWhere st.subs (subIs lemonSqueezyId) (pausedSubUpdate now)
            users := updateWhere st.users (userIs userId) pausedUserUpdate }
      | EventName.subscription_cancelled | EventName.subscription_expired =>
        Except.ok
          { st with
            plans := pr.1, nextPlanId := pr.2.1
            subs := updateWhere st.subs (subIs lemonSqueezyId)
              (reprocessTerminalSubUpdate a now)
            users := updateWhere st.users (userIs userId)
              (reprocessTerminalUserUpdate a) }

/-- The `verifySignature` helper of the route: with no secret configured it returns
false; otherwise it compares the hex HMAC-SHA256 digest of the raw body
with the header value (the length check plus `crypto.timingSafeEqual` is
string equality).  The digest function is a parameter of the model, since
the hash itself is external library code. -/
def verifySignature (hmac : String → String → String) (secret : Option String)
    (payload : String) (signature : String) : Bool :=
  match secret with
  | none => false
  | some s => hmac s payload == signature

/-- The `storeWebhookEvent` helper: inserts an unprocessed event row and returns its
serial id. -/
def storeWebhookEvent (st : DBState) (p : WebhookPayload) (now : Int) :
    Nat × DBState :=
  (st.nextEventId,
   { st with
     events := st.events ++
       [{ id := st.nextEventId
          eventName := p.meta.event_name
          processed := false
          body := p
          processingError := none
          createdAt := now }]
     nextEventId := st.nextEventId + 1 })

/-- The `markWebhookEventProcessed` helper: sets `processed` and, when an error string
is given, `processingError` (drizzle's `set` skips `undefined` values, so a
missing error argument leaves the column untouched). -/
def markWebhookEventProcessed (st : DBState) (eventId : Nat) (err : Option String) :
    DBState :=
  { st with
    events := updateWhere st.events (fun e => e.id == eventId) (fun e =>
      { e with
        processed := true
        processingError := match err with
                           | some m => some m
                           | none => e.processingError }) }

/-- Result of the `POST` handler: HTTP status and resulting database state. -/
structure PostResult where
  status : Nat
  state : DBState
deriving DecidableEq, Repr

/-- The route's `POST` handler: reads the raw body and the `x-signature`
header (missing header becomes `''`), rejects with 401 before any
persistence if the signature fails, then parses the body (a parse failure
would throw to the outer catch: 500), stores the raw event, processes it
(every `EventName` is in the route's `subscriptionEvents` list), marks the
event processed — recording the error message if processing failed — and
acknowledges with 200 either way.  The JSON parser, like the digest, is a
parameter of the model. -/
def handleWebhookPOST (hmac : String → String → String)
    (parse : String → Option WebhookPayload) (secret : Option String)
    (rawBody : String) (signatureHeader : Option String)
    (now : Int) (st : DBState) : PostResult :=
  let signature := signatureHeader.getD ""
  if verifySignature hmac secret rawBody signature then
    match parse rawBody with
    | none => { status := 500, state := st }
    | some payload =>
      let stored := storeWebhookEvent st payload now
      match processSubscriptionEvent payload now stored.2 with
      | Except.ok st2 =>
        { status := 200, state := markWebhookEventProcessed st2 stored.1 none }
      | Except.error msg =>
        { status := 200, state := markWebhookEventProcessed stored.2 stored.1 (some msg) }
  else
    { status := 401, state := st }

/-- The user's tier as stored for `uid`. -/
def userTier (st : DBState) (uid : String) : Option Tier :=
  (findUser st uid).map (fun u => u.subscriptionTier)

/-- The user's subscription status as stored for `uid`. -/
def userStatus (st : DBState) (uid : String) : Option SubStatus :=
  (findUser st uid).map (fun u => u.subscriptionStatus)

/-- The user's `currentPeriodEnd` as stored for `uid`. -/
def userPeriodEnd (st : DBState) (uid : String) : Option (Option Int) :=
  (findUser st uid).map (fun u => u.currentPeriodEnd)

/-- Number of subscription rows keyed by a given external id. -/
def subCount (st : DBState) (lsId : String) : Nat :=
  (st.subs.filter (fun r => r.lemonSqueezyId == lsId)).length

/-! ## Concrete instances used by the claims -/

/-- Equal split of $10.00 between three members. -/
def c1Data : CreateExpenseData :=
  { groupId := "1", description := "dinner", amount := 10, paidById := "a",
    splitBetween := ["a", "b", "c"], splitType := SplitType.equal }

/-- Equal split of $1.00 between three members. -/
def c4Data : CreateExpenseData :=
  { groupId := "1", description := "coffee", amount := 1, paidById := "a",
    splitBetween := ["a", "b", "c"], splitType := SplitType.equal }

/-- The worked item-split example of the specification: three assigned
items ($15 to X, $35 to Y, $25 to Z) plus shared tax $6.75 and tip $4.50. -/
def c5Items : List ExpenseItemData :=
  [ { name := "A", price := 15, quantity := some 1, isSharedCost := false, assignedTo := ["X"] },
    { name := "B", price := 35, quantity := some 1, isSharedCost := false, assignedTo := ["Y"] },
    { name := "C", price := 25, quantity := some 1, isSharedCost := false, assignedTo := ["Z"] },
    { name := "tax", price := 675/100, quantity := some 1, isSharedCost := true, assignedTo := [] },
    { name := "tip", price := 45/10, quantity := some 1, isSharedCost := true, assignedTo := [] } ]

/-- The expense input wrapping `c5Items`. -/
def c5Data : CreateExpenseData :=
  { groupId := "1", description := "restaurant", amount := 345/4, paidById := "X",
    splitBetween := ["X", "Y", "Z"], splitType := SplitType.by_item,
    items := some c5Items }

/-- A non-shared item with nobody assigned to it. -/
def c6Item : ExpenseItemData :=
  { name := "Burger", price := 10, quantity := some 1, isSharedCost := false, assignedTo := [] }

/-- The expense input wrapping `c6Item`. -/
def c6Data : CreateExpenseData :=
  { groupId := "1", description := "lunch", amount := 10, paidById := "a",
    splitBetween := ["a", "b"], splitType := SplitType.by_item,
    items := some [c6Item] }

/-- A shared-cost-only item list: one $10 tip assigned to X and Y. -/
def c7Item : ExpenseItemData :=
  { name := "tip", price := 10, quantity := some 1, isSharedCost := true, assignedTo := ["X", "Y"] }

/-- The expense input wrapping `c7Item`. -/
def c7Data : CreateExpenseData :=
  { groupId := "1", description := "tip only", amount := 10, paidById := "X",
    splitBetween := ["X", "Y"], splitType := SplitType.by_item,
    items := some [c7Item] }

/-- A `by_item` expense whose `items` is the empty list. -/
def c10Data : CreateExpenseData :=
  { groupId := "1", description := "pizza", amount := 9, paidById := "a",
    splitBetween := ["a", "b", "c"], splitType := SplitType.by_item,
    items := some [] }

/-- An empty database. -/
def emptyDB : DBState :=
  { users := [], plans := [], nextPlanId := 1, subs := [], nextSubId := 1,
    events := [], nextEventId := 1 }

/-- A set of payload attributes for an active subscription on variant 77. -/
def sampleAttributes : Attributes :=
  { customer_id := 9001, order_id := 41, product_id := 5, variant_id := 77,
    product_name := "Divvy Pro", variant_name := "Monthly", user_name := "Ada",
    user_email := "ada@example.com", status := SubStatus.active,
    status_formatted := "Active", pause := none, trial_ends_at := none,
    first_subscription_item := some { id := 11, price_id := 501, is_usage_based := false },
    renews_at := some 2000, ends_at := none }

/-- A Pro user with an active subscription. -/
def c2User : UserRow :=
  { id := "u1", subscriptionTier := Tier.pro, subscriptionStatus := SubStatus.active,
    isPaused := false, lemonSqueezyCustomerId := some "9001",
    lemonSqueezySubscriptionId := some "sub-1", currentPeriodEnd := some 2000 }

/-- The plan for variant 77. -/
def c2Plan : PlanRow :=
  { id := 1, variantId := 77, productId := 5, productName := some "Divvy Pro",
    name := "Monthly", price := "900", description := none }

/-- The active subscription row of `c2User`. -/
def c2Sub : SubRow :=
  { id := 1, lemonSqueezyId := "sub-1", orderId := 41, name := "Ada",
    email := "ada@example.com", status := SubStatus.active, statusFormatted := "Active",
    renewsAt := some 2000, endsAt := none, trialEndsAt := none, price := "501",
    isUsageBased := false, isPaused := false, subscriptionItemId := some 11,
    userId := "u1", planId := 1, createdAt := 0, updatedAt := 0 }

/-- Database with one Pro user, their plan and their subscription. -/
def c2State : DBState :=
  { users := [c2User], plans := [c2Plan], nextPlanId := 2, subs := [c2Sub],
    nextSubId := 2, events := [], nextEventId := 1 }

/-- A `subscription_cancelled` payload for `sub-1` with `ends_at = 5000`,
in the future of processing time 1000. -/
def c2CancelPayload : WebhookPayload :=
  { meta := { event_name := EventName.subscription_cancelled,
              custom_data := some { user_id := some "u1" } },
    data := { id := "sub-1",
              attributes := { sampleAttributes with
                status := SubStatus.cancelled, status_formatted := "Cancelled",
                renews_at := none, ends_at := some 5000 } } }

/-- A `subscription_updated` payload for `sub-1` with status `past_due`. -/
def c2UpdatedPayload : WebhookPayload :=
  { meta := { event_name := EventName.subscription_updated,
              custom_data := some { user_id := some "u1" } },
    data := { id := "sub-1",
              attributes := { sampleAttributes with
                status := SubStatus.past_due, status_formatted := "Past due" } } }

/-- State after the reprocess script handles `c2CancelPayload`. -/
def c2ReprocessAfter : DBState :=
  (reprocessSubscriptionEvent c2CancelPayload 1000 c2State).toOption.getD c2State

/-- State after the webhook route handles `c2CancelPayload`. -/
def c2RouteCancelAfter : DBState :=
  (processSubscriptionEvent c2CancelPayload 1000 c2State).toOption.getD c2State

/-- State after the webhook route handles `c2UpdatedPayload`. -/
def c2UpdatedAfter : DBState :=
  (processSubscriptionEvent c2UpdatedPayload 1000 c2State).toOption.getD c2State

/-- A free-tier user about to subscribe. -/
def c3User : UserRow :=
  { id := "u1", subscriptionTier := Tier.free, subscriptionStatus := SubStatus.active,
    isPaused := false, lemonSqueezyCustomerId := none,
    lemonSqueezySubscriptionId := none, currentPeriodEnd := none }

/-- Database with one free user and no plans or subscriptions. -/
def c3State : DBState :=
  { users := [c3User], plans := [], nextPlanId := 1, subs := [], nextSubId := 1,
    events := [], nextEventId := 1 }

/-- A `subscription_created` payload for a new subscription `sub-9`. -/
def c3Payload : WebhookPayload :=
  { meta := { event_name := EventName.subscription_created,
              custom_data := some { user_id := some "u1" } },
    data := { id := "sub-9", attributes := sampleAttributes } }

/-- State after processing `c3Payload` once. -/
def c3After : DBState :=
  (processSubscriptionEvent c3Payload 300 c3State).toOption.getD c3State

/-- A concrete stand-in digest function for the signature witnesses. -/
def witnessHmac : String → String → String :=
  fun secret body => secret ++ ":" ++ body

/-- A payload whose `custom_data` is missing, so processing throws
`No user_id found in webhook custom_data`. -/
def c9Payload : WebhookPayload :=
  { meta := { event_name := EventName.subscription_created, custom_data := none },
    data := { id := "sub-9", attributes := sampleAttributes } }

/-! ## Helper lemmas -/

theorem updateWhere_find? {α : Type} (l : List α) (q : α → Bool) (f : α → α)
    (hq : ∀ a, q (f a) = q a) :
    (updateWhere l q f).find? q = (l.find? q).map f := by
  induction l with
  | nil => rfl
  | cons a l ih =>
    simp only [updateWhere, List.map_cons]
    cases h : q a with
    | true =>
      rw [if_pos rfl, List.find?_cons_of_pos _ (by rw [hq]; exact h),
        List.find?_cons_of_pos _ h]
      rfl
    | false =>
      rw [if_neg (by simp), List.find?_cons_of_neg _ (by simp [h]),
        List.find?_cons_of_neg _ (by simp [h])]
      exact ih

theorem updateWhere_idem {α : Type} (l : List α) (q : α → Bool) (f : α → α)
    (hq : ∀ a, q a = true → q (f a) = true) (hf : ∀ a, f (f a) = f a) :
    updateWhere (updateWhere l q f) q f = updateWhere l q f := by
  simp only [updateWhere, List.map_map]
  refine List.map_congr_left fun a _ => ?_
  cases h : q a with
  | true => simp [Function.comp, h, hq a h, hf]
  | false => simp [Function.comp, h]

theorem updateWhere_any {α : Type} (l : List α) (q : α → Bool) (f : α → α)
    (hq : ∀ a, q a = true → q (f a) = true) :
    (updateWhere l q f).any q = l.any q := by
  simp only [updateWhere, List.any_map]
  induction l with
  | nil => rfl
  | cons a l ih =>
    cases h : q a with
    | true => simp [Function.comp, h, hq a h]
    | false => simp [Function.comp, h, ih]

theorem updateWhere_countP {α : Type} (l : List α) (q : α → Bool) (f : α → α)
    (hq : ∀ a, q a = true → q (f a) = true) :
    (updateWhere l q f).countP q = l.countP q := by
  simp only [updateWhere, List.countP_map]
  refine List.countP_congr fun a _ => ?_
  cases h : q a with
  | true => simp [Function.comp, h, hq a h]
  | false => simp [Function.comp, h]

theorem updateWhere_eq_self {α : Type} (l : List α) (q : α → Bool) (f : α → α)
    (h : ∀ a ∈ l, ¬ q a = true) :
    updateWhere l q f = l := by
  have h' : ∀ a ∈ l, (if q a then f a else a) = id a := by
    intro a ha
    simp [h a ha]
  simpa [updateWhere] using List.map_congr_left h'

theorem setSubFields_setSubFields (r : SubRow) (d : SubData) :
    setSubFields (setSubFields r d) d = setSubFields r d := rfl

theorem setSubFields_newSubRow (i : Nat) (c : Int) (d : SubData) :
    setSubFields (newSubRow i c d) d = newSubRow i c d := rfl

theorem upsertSub_any (subs : List SubRow) (nextId : Nat) (d : SubData) (now : Int) :
    (upsertSub subs nextId d now).1.any
      (fun r => r.lemonSqueezyId == d.lemonSqueezyId) = true := by
  cases hany : subs.any (fun r => r.lemonSqueezyId == d.lemonSqueezyId) with
  | true =>
    simp only [upsertSub, hany, if_true]
    rw [updateWhere_any _ _ _ (fun a _ => by simp [setSubFields])]
    exact hany
  | false =>
    simp only [upsertSub, hany, Bool.false_eq_true, if_false]
    simp [newSubRow]

theorem upsertSub_idem (subs : List SubRow) (nextId : Nat) (d : SubData) (now : Int) :
    upsertSub (upsertSub subs nextId d now).1 (upsertSub subs nextId d now).2 d now
      = upsertSub subs nextId d now := by
  cases hany : subs.any (fun r => r.lemonSqueezyId == d.lemonSqueezyId) with
  | true =>
    simp only [upsertSub, hany, if_true]
    have hany2 : (updateWhere subs (fun r => r.lemonSqueezyId == d.lemonSqueezyId)
        (fun r => setSubFields r d)).any (fun r => r.lemonSqueezyId == d.lemonSqueezyId)
        = true := by
      rw [updateWhere_any _ _ _ (fun a _ => by simp [setSubFields])]
      exact hany
    rw [if_pos hany2,
      updateWhere_idem _ _ _ (fun a _ => by simp [setSubFields])
        (fun a => setSubFields_setSubFields a d)]
  | false =>
    simp only [upsertSub, hany, Bool.false_eq_true, if_false]
    have hnew : (subs ++ [newSubRow nextId now d]).any
        (fun r => r.lemonSqueezyId == d.lemonSqueezyId) = true := by
      simp [newSubRow]
    rw [if_pos hnew]
    have hmap : updateWhere (subs ++ [newSubRow nextId now d])
        (fun r => r.lemonSqueezyId == d.lemonSqueezyId) (fun r => setSubFields r d)
        = subs ++ [newSubRow nextId now d] := by
      unfold updateWhere
      rw [List.map_append]
      congr 1
      · simpa [updateWhere] using
          updateWhere_eq_self subs _ (fun r => setSubFields r d) (List.any_eq_false.mp hany)
      · simp [newSubRow, setSubFields]
    rw [hmap]

theorem upsertSub_count (subs : List SubRow) (nextId : Nat) (d : SubData) (now : Int)
    (h : (subs.filter (fun r => r.lemonSqueezyId == d.lemonSqueezyId)).length ≤ 1) :
    ((upsertSub subs nextId d now).1.filter
      (fun r => r.lemonSqueezyId == d.lemonSqueezyId)).length = 1 := by
  rw [← List.countP_eq_length_filter] at h ⊢
  cases hany : subs.any (fun r => r.lemonSqueezyId == d.lemonSqueezyId) with
  | true =>
    simp only [upsertSub, hany, if_true]
    rw [updateWhere_countP _ _ _ (fun a _ => by simp [setSubFields])]
    have hex : ∃ x ∈ subs, (fun r => r.lemonSqueezyId == d.lemonSqueezyId) x = true :=
      List.any_eq_true.mp hany
    have hpos : 0 < subs.countP (fun r => r.lemonSqueezyId == d.lemonSqueezyId) :=
      List.countP_pos_iff.mpr hex
    omega
  | false =>
    simp only [upsertSub, hany, Bool.false_eq_true, if_false]
    rw [List.countP_append]
    have h0 : subs.countP (fun r => r.lemonSqueezyId == d.lemonSqueezyId) = 0 :=
      List.countP_eq_zero.mpr (List.any_eq_false.mp hany)
    rw [h0]
    simp [newSubRow]

theorem find?_append_of_none {α : Type} {l₁ l₂ : List α} {p : α → Bool}
    (h : l₁.find? p = none) : (l₁ ++ l₂).find? p = l₂.find? p := by
  induction l₁ with
  | nil => simp
  | cons a l ih =>
    rw [List.find?_eq_none] at h
    have ha : ¬ p a = true := h a (by simp)
    have hl : l.find? p = none := List.find?_eq_none.mpr fun x hx => h x (by simp [hx])
    rw [List.cons_append, List.find?_cons_of_neg _ ha]
    exact ih hl

theorem resolvePlan_idem (pl : List PlanRow) (n : Nat) (a : Attributes) :
    resolvePlan (resolvePlan pl n a).1 (resolvePlan pl n a).2.1 a
      = ((resolvePlan pl n a).1, (resolvePlan pl n a).2.1, (resolvePlan pl n a).2.2) := by
  unfold resolvePlan
  cases hf : pl.find? (fun q => q.variantId == a.variant_id) with
  | some q => simp [hf]
  | none => simp [hf, mkPlan]

/-! ## Claims about the split allocation engine -/

/-- Claim C1: the split-sum invariant — the sum of the Split rows created by
`createExpenseAction` equals the expense's stored amount exactly to the
cent, for all three split methods.  The code violates it: an equal split of
$10.00 between three members persists three rows of $3.33 (the naive
division `data.amount / data.splitBetween.length` lands in a
`numeric(10, 2)` column), which sum to $9.99, not the stored $10.00. -/
theorem c1_split_sum_violation :
    persistedAmount c1Data = 10 ∧
    persistedSplits c1Data = [("a", 333/100), ("b", 333/100), ("c", 333/100)] ∧
    splitSum (persistedSplits c1Data) = 999/100 ∧
    splitSum (persistedSplits c1Data) ≠ persistedAmount c1Data := by
  refine ⟨?_, ?_, ?_, ?_⟩ <;>
    norm_num [c1Data, persistedAmount, persistedSplits, splitsToInsert, splitSum, round2]

/-- Claim C4: an equal split is supposed to round each share to 2 decimals
and deterministically reassign the rounding residual so the shares sum
exactly to the amount.  The code does no residual reconciliation: splitting
$1.00 between three members persists three rows of $0.33 summing to $0.99,
one cent short, with the missing cent assigned to nobody. -/
theorem c4_equal_split_residual_unassigned :
    persistedSplits c4Data = [("a", 33/100), ("b", 33/100), ("c", 33/100)] ∧
    splitSum (persistedSplits c4Data) = 99/100 ∧
    persistedAmount c4Data = 1 ∧
    splitSum (persistedSplits c4Data) ≠ persistedAmount c4Data := by
  refine ⟨?_, ?_, ?_, ?_⟩ <;>
    norm_num [c4Data, persistedAmount, persistedSplits, splitsToInsert, splitSum, round2]

/-- Claim C5: the worked item-split example — items A ($15, X), B ($35, Y),
C ($25, Z) and shared costs $6.75 + $4.50 allocate exactly $17.25 to X,
$40.25 to Y and $28.75 to Z, summing to $86.25. -/
theorem c5_item_proportionality_example :
    splitsToInsert c5Data = [("X", 69/4), ("Y", 161/4), ("Z", 115/4)] ∧
    splitSum (splitsToInsert c5Data) = 345/4 := by
  constructor <;>
  · simp only [c5Data, c5Items, splitsToInsert, itemSplits, applySharedCosts, pass1,
      bump, allAssignedUsers, itemTotal, jsQuantity, round2, splitSum,
      List.foldl, List.map, List.sum]
    norm_num

/-- Claim C6: a non-shared item with an empty `assignedTo` is supposed to
fail validation before persistence.  The code performs no such check: it
adds the item's price to `totalNonSharedCost`, allocates it to nobody,
produces an empty split list without any error, and persists the expense.
(The JavaScript division `itemTotal / 0` produces `Infinity`, but the value
is discarded because the loop over the empty `assignedTo` never runs.) -/
theorem c6_unassigned_item_not_rejected :
    c6Item.isSharedCost = false ∧
    c6Item.assignedTo = [] ∧
    (pass1 [c6Item]).totalNonShared = 10 ∧
    splitsToInsert c6Data = [] := by
  refine ⟨rfl, rfl, ?_, ?_⟩ <;>
  · simp only [c6Data, c6Item, splitsToInsert, itemSplits, applySharedCosts, pass1,
      bump, allAssignedUsers, itemTotal, jsQuantity, round2,
      List.foldl, List.map]
    norm_num

/-- Claim C7: when the non-shared subtotal is zero but the shared total is
positive and users are assigned, the shared total is supposed to be divided
equally among those users.  In the server code the equal-division branch is
guarded by `Object.keys(userTotals).length > 0`, and `userTotals` is empty
whenever no non-shared item has assignees, so for a $10 shared-only item
assigned to X and Y the computation produces no splits at all and the
shared total is never allocated. -/
theorem c7_shared_only_items_unallocated :
    (pass1 [c7Item]).totalNonShared = 0 ∧
    (pass1 [c7Item]).totalShared = 10 ∧
    (pass1 [c7Item]).userTotals = [] ∧
    allAssignedUsers [c7Item] = ["X", "Y"] ∧
    splitsToInsert c7Data = [] := by
  refine ⟨?_, ?_, ?_, ?_, ?_⟩ <;>
  · simp only [c7Data, c7Item, splitsToInsert, itemSplits, applySharedCosts, pass1,
      bump, allAssignedUsers, itemTotal, jsQuantity, round2,
      List.foldl, List.map]
    norm_num
    all_goals decide

/-- Claim C10: a `by_item` expense whose `items` is `undefined` or the empty
list raises no validation error: the guard
`data.splitType === 'by_item' && data.items && data.items.length > 0` fails,
the `custom` guard fails too, and the code silently falls through to the
equal split over `splitBetween`, exactly as for `splitType = 'equal'`. -/
theorem c10_by_item_without_items_equal_fallback (d : CreateExpenseData)
    (hty : d.splitType = SplitType.by_item)
    (hit : d.items = none ∨ d.items = some []) :
    splitsToInsert d = splitsToInsert { d with splitType := SplitType.equal } := by
  rcases hit with h | h <;> simp [splitsToInsert, hty, h]

/-- Witness for C10 at a concrete input. -/
theorem c10_witness :
    splitsToInsert c10Data
      = splitsToInsert { c10Data with splitType := SplitType.equal } :=
  c10_by_item_without_items_equal_fallback c10Data rfl (Or.inr rfl)

/-! ## Claims about the subscription state machine -/

/-- Counterexample to claim C2 as stated: in the reprocess script's
`processSubscriptionEvent` (one of the claim's two cited implementations),
a `subscription_cancelled` event with a future `ends_at` (5000, processed
at time 1000) drops the Pro user's tier to `free` immediately, instead of
leaving it unchanged at `pro`. -/
theorem c2_cancel_downgrade_counterexample :
    c2CancelPayload.meta.event_name = EventName.subscription_cancelled ∧
    c2CancelPayload.data.attributes.ends_at = some 5000 ∧
    (1000 : Int) < 5000 ∧
    userTier c2State "u1" = some Tier.pro ∧
    reprocessSubscriptionEvent c2CancelPayload 1000 c2State
      = Except.ok c2ReprocessAfter ∧
    userTier c2ReprocessAfter "u1" = some Tier.free :=
  ⟨rfl, rfl, by norm_num, rfl, rfl, rfl⟩

/-- Claim C2, amended.  In the webhook route's `processSubscriptionEvent`,
`subscription_cancelled` leaves the user's tier unchanged while setting the
status to `cancelled` and `currentPeriodEnd` to the payload's `ends_at`,
and `subscription_expired` sets the tier to `free`; but `subscription_expired`
is not the only event that revokes Pro access: `subscription_updated` (or
`subscription_resumed`) with a status outside `{active, on_trial}` also sets
the tier to `free` (witnessed here by a `past_due` update to a Pro user),
and the reprocess script downgrades on `subscription_cancelled` as well. -/
theorem c2_amended_transitions :
    (∀ (p : WebhookPayload) (now : Int) (st st1 : DBState) (uid : String),
        processSubscriptionEvent p now st = Except.ok st1 →
        p.meta.event_name = EventName.subscription_cancelled →
        p.meta.custom_data.bind (fun c => c.user_id) = some uid →
        userTier st1 uid = userTier st uid ∧
        userStatus st1 uid = some SubStatus.cancelled ∧
        userPeriodEnd st1 uid = some p.data.attributes.ends_at) ∧
    (∀ (p : WebhookPayload) (now : Int) (st st1 : DBState) (uid : String),
        processSubscriptionEvent p now st = Except.ok st1 →
        p.meta.event_name = EventName.subscription_expired →
        p.meta.custom_data.bind (fun c => c.user_id) = some uid →
        userTier st1 uid = some Tier.free) ∧
    (c2UpdatedPayload.meta.event_name = EventName.subscription_updated ∧
     userTier c2State "u1" = some Tier.pro ∧
     processSubscriptionEvent c2UpdatedPayload 1000 c2State
       = Except.ok c2UpdatedAfter ∧
     userTier c2UpdatedAfter "u1" = some Tier.free) := by
  refine ⟨?_, ?_, rfl, rfl, rfl, rfl⟩
  · intro p now st st1 uid h1 hev huid
    simp only [processSubscriptionEvent, huid] at h1
    cases hfu : findUser st uid with
    | none => rw [hfu] at h1; cases h1
    | some u =>
      rw [hfu] at h1
      simp only [hev, Except.ok.injEq] at h1
      subst h1
      refine ⟨?_, ?_, ?_⟩ <;>
      · simp only [userTier, userStatus, userPeriodEnd, findUser]
        rw [updateWhere_find? st.users (userIs uid)
          (cancelledUserUpdate p.data.attributes) (fun w => rfl),
          show List.find? (userIs uid) st.users = some u from hfu]
        rfl
  · intro p now st st1 uid h1 hev huid
    simp only [processSubscriptionEvent, huid] at h1
    cases hfu : findUser st uid with
    | none => rw [hfu] at h1; cases h1
    | some u =>
      rw [hfu] at h1
      simp only [hev, Except.ok.injEq] at h1
      subst h1
      simp only [userTier, findUser]
      rw [updateWhere_find? st.users (userIs uid) expiredUserUpdate (fun w => rfl),
        show List.find? (userIs uid) st.users = some u from hfu]
      rfl

/-- Claim C3: processing the same `subscription_created` payload twice is
idempotent per external subscription id.  If one application succeeds,
applying the identical payload again (at the same time stamp) leaves the
state fixed — the `onConflictDoUpdate` upsert overwrites the row it created
— and the state holds exactly one subscription row for `data.id` (given the
unique-constraint invariant that at most one such row existed before). -/
theorem c3_created_idempotent (p : WebhookPayload) (now : Int) (st st1 : DBState)
    (hev : p.meta.event_name = EventName.subscription_created)
    (h1 : processSubscriptionEvent p now st = Except.ok st1)
    (hcount : subCount st p.data.id ≤ 1) :
    processSubscriptionEvent p now st1 = Except.ok st1 ∧ subCount st1 p.data.id = 1 := by
  cases huid : p.meta.custom_data.bind (fun c => c.user_id) with
  | none => simp only [processSubscriptionEvent, huid] at h1; cases h1
  | some uid =>
    simp only [processSubscriptionEvent, huid] at h1
    cases hfu : findUser st uid with
    | none => rw [hfu] at h1; cases h1
    | some u =>
      rw [hfu] at h1
      simp only [hev, Except.ok.injEq] at h1
      subst h1
      constructor
      · simp only [processSubscriptionEvent, huid, hev, findUser]
        rw [updateWhere_find? st.users (userIs uid)
            (createdUserUpdate p.data.attributes p.data.id) (fun w => rfl),
          show List.find? (userIs uid) st.users = some u from hfu]
        simp only [Option.map_some', Except.ok.injEq]
        simp only [resolvePlan_idem]
        rw [upsertSub_idem,
          updateWhere_idem st.users (userIs uid)
            (createdUserUpdate p.data.attributes p.data.id)
            (fun w hw => hw) (fun w => rfl)]
      · have hc : (st.subs.filter (fun r => r.lemonSqueezyId ==
            (mkSubData p (resolvePlan st.plans st.nextPlanId
              p.data.attributes).2.2 uid now).lemonSqueezyId)).length ≤ 1 := by
          simpa [subCount, mkSubData] using hcount
        have h2 := upsertSub_count st.subs st.nextSubId
          (mkSubData p (resolvePlan st.plans st.nextPlanId
            p.data.attributes).2.2 uid now) now hc
        simpa [subCount, mkSubData] using h2

/-- Witness for C3: a concrete `subscription_created` payload processed
twice from a one-user database. -/
theorem c3_witness :
    processSubscriptionEvent c3Payload 300 c3State = Except.ok c3After ∧
    processSubscriptionEvent c3Payload 300 c3After = Except.ok c3After ∧
    subCount c3After "sub-9" = 1 := by
  have h := c3_created_idempotent c3Payload 300 c3State c3After rfl rfl (by decide)
  exact ⟨rfl, h.1, h.2⟩

/-- Witness for the amended C2 at a concrete cancellation. -/
theorem c2_amended_witness :
    userTier c2RouteCancelAfter "u1" = userTier c2State "u1" ∧
    userStatus c2RouteCancelAfter "u1" = some SubStatus.cancelled ∧
    userPeriodEnd c2RouteCancelAfter "u1" = some (some 5000) := by
  have h := c2_amended_transitions.1 c2CancelPayload 1000 c2State c2RouteCancelAfter
    "u1" rfl rfl rfl
  exact ⟨h.1, h.2.1, h.2.2⟩

/-- Claim C8: a webhook request whose signature header does not match the
HMAC digest of the raw body (or is missing — the route turns a missing
header into `''`) is answered with 401 and the database state is returned
unchanged: no WebhookEvent row is stored and no subscription, user or plan
state is modified. -/
theorem c8_invalid_signature_rejected (hmac : String → String → String)
    (parse : String → Option WebhookPayload) (secret : Option String)
    (rawBody : String) (sigHeader : Option String) (now : Int) (st : DBState)
    (h : verifySignature hmac secret rawBody (sigHeader.getD "") = false) :
    handleWebhookPOST hmac parse secret rawBody sigHeader now st
      = { status := 401, state := st } := by
  simp [handleWebhookPOST, h]

/-- Witness for C8: a concrete digest mismatch (missing header). -/
theorem c8_witness :
    verifySignature witnessHmac (some "secret") "body" (Option.getD none "") = false ∧
    handleWebhookPOST witnessHmac (fun _ => none) (some "secret") "body" none 1 emptyDB
      = { status := 401, state := emptyDB } :=
  ⟨rfl, c8_invalid_signature_rejected witnessHmac (fun _ => none) (some "secret")
    "body" none 1 emptyDB rfl⟩

/-- Claim C9: when a validly-signed event's processing throws, the stored
WebhookEvent row is updated with `processed = true` and `processingError`
set to the error message, and the endpoint still answers 200.  The
freshness hypothesis is the serial-key invariant: no existing row already
carries the id the insert will use. -/
theorem c9_processing_error_recorded (hmac : String → String → String)
    (parse : String → Option WebhookPayload) (secret : Option String)
    (rawBody : String) (sigHeader : Option String) (now : Int) (st : DBState)
    (payload : WebhookPayload) (msg : String)
    (hsig : verifySignature hmac secret rawBody (sigHeader.getD "") = true)
    (hparse : parse rawBody = some payload)
    (hproc : processSubscriptionEvent payload now (storeWebhookEvent st payload now).2
      = Except.error msg)
    (hfresh : ∀ e ∈ st.events, e.id ≠ st.nextEventId) :
    (handleWebhookPOST hmac parse secret rawBody sigHeader now st).status = 200 ∧
    (handleWebhookPOST hmac parse secret rawBody sigHeader now st).state.events.find?
        (fun e => e.id == st.nextEventId)
      = some { id := st.nextEventId, eventName := payload.meta.event_name,
               processed := true, body := payload, processingError := some msg,
               createdAt := now } := by
  have hpost : handleWebhookPOST hmac parse secret rawBody sigHeader now st
      = { status := 200,
          state := markWebhookEventProcessed (storeWebhookEvent st payload now).2
            (storeWebhookEvent st payload now).1 (some msg) } := by
    simp [handleWebhookPOST, hsig, hparse, hproc]
  rw [hpost]
  refine ⟨rfl, ?_⟩
  simp only [markWebhookEventProcessed, storeWebhookEvent]
  rw [updateWhere_find? _ (fun (e : WebhookEventRow) => e.id == st.nextEventId)
      (fun (e : WebhookEventRow) => { e with processed := true, processingError := some msg })
      (fun e => rfl),
    find?_append_of_none (List.find?_eq_none.mpr fun e he => by
      simpa using hfresh e he)]
  simp

/-- Witness for C9: a validly-signed payload without `custom_data`, whose
processing throws `No user_id found in webhook custom_data`. -/
theorem c9_witness :
    (handleWebhookPOST witnessHmac (fun _ => some c9Payload) (some "k") "raw"
        (some (witnessHmac "k" "raw")) 5 emptyDB).status = 200 ∧
    (handleWebhookPOST witnessHmac (fun _ => some c9Payload) (some "k") "raw"
        (some (witnessHmac "k" "raw")) 5 emptyDB).state.events.find?
        (fun e => e.id == emptyDB.nextEventId)
      = some { id := 1, eventName := EventName.subscription_created,
               processed := true, body := c9Payload,
               processingError := some "No user_id found in webhook custom_data",
               createdAt := 5 } := by
  have h := c9_processing_error_recorded witnessHmac (fun _ => some c9Payload)
    (some "k") "raw" (some (witnessHmac "k" "raw")) 5 emptyDB c9Payload
    "No user_id found in webhook custom_data" rfl rfl rfl
    (fun e he => by simp [emptyDB] at he)
  exact ⟨h.1, h.2⟩

end Divvy
